import Mathlib

/-!
# Service registration and lookup client (`consul.go`)

A shallow embedding of `src/consul.go`: the health-check descriptor built by
`NewgRPCHealthCheck`, the registration submitted by `client.Register`, the first-match
selection of `client.Lookup`, and the two package-level helpers `RegistergRPCService` and
`LookupService`.

Modelling conventions

* Go `string` is `String`; Go `int` is `Int` (no arithmetic is performed on ports, they are
  only compared with `0` and printed in decimal).
* Go `error` is `GoError`; a nil error is `none`.
* A Go pointer is an `Option`: `none` is the nil pointer.  A function that dereferences a
  pointer ends in `Outcome.nilDereference` when the pointer is nil.
* The discovery backend is reached through the two calls the source makes on the
  third-party client, `Agent().ServiceRegister` and `Health().Service`.  They are fields
  of `ConsulClient σ`, where `σ` is the state of the world the backend lives in; every
  operation threads that state explicitly.
-/

namespace Consul

/-! ## Library functions used by the source -/

/-- Go `strconv.Itoa` (and the `%d` verb of `fmt.Sprintf` on an `int`): the decimal
rendering of an integer, with a leading `-` for negative values. -/
def Itoa (i : Int) : String :=
  match i with
  | Int.ofNat n => Nat.repr n
  | Int.negSucc n => "-" ++ Nat.repr (n + 1)

/-- Go `net.JoinHostPort` (`net/ipsock.go`):
```go
if bytealg.IndexByteString(host, ':') >= 0 {
	return "[" + host + "]:" + port
}
return host + ":" + port
```
-/
def JoinHostPort (host port : String) : String :=
  if ':' ∈ host.data then "[" ++ host ++ "]:" ++ port else host ++ ":" ++ port

/-- Go error values.  `external` stands for an error made outside this package (by the
backend client library or by `nettools`); `fundamental` is what `errors.Errorf` builds;
`withMessage` is what `errors.Wrap` and `errors.Wrapf` build around a cause.  The stack
traces recorded by `github.com/pkg/errors` are not modelled. -/
inductive GoError where
  | external (msg : String)
  | fundamental (msg : String)
  | withMessage (cause : GoError) (msg : String)
  deriving DecidableEq, Repr

/-- The `Error()` method: a wrapped error prints its message, `": "`, then its cause. -/
def GoError.Error : GoError → String
  | .external msg => msg
  | .fundamental msg => msg
  | .withMessage cause msg => msg ++ ": " ++ cause.Error

/-- The function `errors.Cause`: the innermost error of a chain of wrappers. -/
def GoError.Cause : GoError → GoError
  | .withMessage cause _ => cause.Cause
  | e => e

/-- The function `errors.Wrap(err, message)`; it returns nil when `err` is nil. -/
def errors.Wrap (err : Option GoError) (message : String) : Option GoError :=
  match err with
  | none => none
  | some e => some (GoError.withMessage e message)

/-- The function `errors.Errorf` after formatting: a fresh error carrying `message`. -/
def errors.Errorf (message : String) : Option GoError :=
  some (GoError.fundamental message)

/-! ## Data model (types of `github.com/hashicorp/consul/api` as far as the source uses them) -/

/-- The fields of `consul.AgentServiceCheck` that `NewgRPCHealthCheck` sets; the composite
literal leaves every other field of the library type at its zero value. -/
structure AgentServiceCheck where
  CheckID : String
  Name : String
  Interval : String
  Timeout : String
  TLSSkipVerify : Bool
  GRPC : String
  GRPCUseTLS : Bool
  deriving DecidableEq, Repr

/-- The fields of `consul.AgentServiceRegistration` that `Register` sets.  `Check` is a
pointer in Go: `none` is the nil pointer. -/
structure AgentServiceRegistration where
  ID : String
  Name : String
  Address : String
  Port : Int
  Check : Option AgentServiceCheck
  deriving DecidableEq, Repr

/-- The fields of `consul.AgentService` that `Lookup` reads. -/
structure AgentService where
  Address : String
  Port : Int
  deriving DecidableEq, Repr

/-- The type `consul.ServiceEntry` as far as `Lookup` reads it.  `Service` is a pointer in
Go (`*AgentService`): `none` is the nil pointer.  The slice returned by `Health().Service`
holds pointers to such entries, so it is a `List (Option ServiceEntry)`. -/
structure ServiceEntry where
  Service : Option AgentService
  deriving DecidableEq, Repr

/-- How a call of a Go function ends: it returns a value, or it stops with the run-time
error raised by dereferencing a nil pointer. -/
inductive Outcome (α : Type) where
  | returned (value : α)
  | nilDereference
  deriving DecidableEq, Repr

/-- The two backend calls made by the source, over a world state `σ`.
`ServiceRegister reg` is `c.consul.Agent().ServiceRegister(reg)`;
`HealthService service tag passingOnly` is
`c.consul.Health().Service(service, tag, passingOnly, nil)` without the query metadata,
which the source discards. -/
structure ConsulClient (σ : Type) where
  ServiceRegister : AgentServiceRegistration → σ → Option GoError × σ
  HealthService :
    String → String → Bool → σ → (List (Option ServiceEntry) × Option GoError) × σ

/-- The unexported `client` struct: a handle on the backend client. -/
structure client (σ : Type) where
  consul : ConsulClient σ

/-! ## The operations of `consul.go` -/

/-- The function `NewgRPCHealthCheck` (lines 35-45). -/
def NewgRPCHealthCheck (service : String) (address : String) (port : Int) :
    AgentServiceCheck :=
  { CheckID := "healthcheck-" ++ service ++ "-" ++ address ++ ":" ++ Itoa port
    Name := "grpc-" ++ service
    Interval := "5s"
    Timeout := "1s"
    TLSSkipVerify := true
    GRPC := JoinHostPort address (Itoa port)
    GRPCUseTLS := false }

/-- The registration record built on lines 49-55 of `Register`. -/
def client.registration (service : String) (address : String) (port : Int)
    (healthCheck : Option AgentServiceCheck) : AgentServiceRegistration :=
  { ID := service ++ "-" ++ address ++ ":" ++ Itoa port
    Name := service
    Address := address
    Port := port
    Check := healthCheck }

/-- The method `client.Register` (lines 48-58): build the record, hand it to the backend,
return the backend's error. -/
def client.Register {σ : Type} (c : client σ) (service : String) (address : String)
    (port : Int) (healthCheck : Option AgentServiceCheck) (w : σ) : Option GoError × σ :=
  let reg := client.registration service address port healthCheck
  c.consul.ServiceRegister reg w

/-- The `for ... range addrs` loop of `Lookup` (lines 71-76) together with the statement
after it.  Line 72 reads `serviceEntry.Service.Address` with no nil test, so a nil entry or
an entry whose `Service` is nil stops the call; otherwise the first entry with a non-empty
address and a positive port wins. -/
def client.Lookup.scan (service : String) :
    List (Option ServiceEntry) → Outcome (String × Option GoError)
  | [] =>
    .returned ("", errors.Errorf ("Could not look up service " ++ service ++ " host:port"))
  | none :: _ => .nilDereference
  | some serviceEntry :: rest =>
    match serviceEntry.Service with
    | none => .nilDereference
    | some svc =>
      if svc.Address ≠ "" ∧ svc.Port > 0 then
        .returned (JoinHostPort svc.Address (Itoa svc.Port), none)
      else
        client.Lookup.scan service rest

/-- The method `client.Lookup` (lines 61-77). -/
def client.Lookup {σ : Type} (c : client σ) (service : String) (tag : String) (w : σ) :
    Outcome (String × Option GoError) × σ :=
  let passingOnly := true
  let r := c.consul.HealthService service tag passingOnly w
  let addrs := r.1.1
  let err := r.1.2
  let w1 := r.2
  if err ≠ none then
    (.returned ("", errors.Wrap err "error getting service from consul"), w1)
  else if addrs.length = 0 ∧ err = none then
    (.returned ("", errors.Errorf ("service ( " ++ service ++ " ) was not found")), w1)
  else
    (client.Lookup.scan service addrs, w1)

/-- What the package needs from outside to build a client and to split an address:
`SplitHostPort` is `nettools.SplitHostPort`, returning host, port and error; `NewClient` is
`consul.NewClient` applied to the default configuration with its `Address` field replaced
by the argument, returning either a client or an error. -/
structure Environment (σ : Type) where
  SplitHostPort : String → (String × Int) × Option GoError
  NewClient : String → Except GoError (ConsulClient σ)

/-- The function `NewConsulClient` (lines 24-32). -/
def NewConsulClient {σ : Type} (env : Environment σ) (addr : String) :
    Except GoError (client σ) :=
  match env.NewClient addr with
  | .error err => .error err
  | .ok c => .ok { consul := c }

/-- The function `RegistergRPCService` (lines 80-98).  The argument `myServiceID` is
accepted and never used, as in the source. -/
def RegistergRPCService {σ : Type} (env : Environment σ) (consulAddr : String)
    (myServiceID : String) (myServiceExternalAddr : String) (w : σ) : Option GoError × σ :=
  let _ := myServiceID
  match env.SplitHostPort myServiceExternalAddr with
  | (_, some err) =>
    (errors.Wrap (some err) ("Cannot split host:port in " ++ myServiceExternalAddr), w)
  | ((host, port), none) =>
    match NewConsulClient env consulAddr with
    | .error err => (errors.Wrap (some err) "failed to connect to consul", w)
    | .ok client =>
      let healthCheck := NewgRPCHealthCheck consulAddr host port
      match client.Register "exception-service" host port (some healthCheck) w with
      | (some err, w1) => (errors.Wrap (some err) "failed to registed service", w1)
      | (none, w1) => (none, w1)

/-- The function `LookupService` (lines 101-111). -/
def LookupService {σ : Type} (env : Environment σ) (consulAddr : String) (service : String)
    (w : σ) : Outcome (String × Option GoError) × σ :=
  match NewConsulClient env consulAddr with
  | .error err => (.returned ("", errors.Wrap (some err) "failed to connect to consul"), w)
  | .ok client =>
    match client.Lookup service "" w with
    | (.nilDereference, w1) => (.nilDereference, w1)
    | (.returned (_, some err), w1) =>
      (.returned ("", errors.Wrap (some err) ("failed to lookup service " ++ service)), w1)
    | (.returned (addr, none), w1) => (.returned (addr, none), w1)

/-! ## Observing the backend calls -/

/-- A backend call as seen from the backend side. -/
inductive Call where
  | ServiceRegister (reg : AgentServiceRegistration)
  | HealthService (service : String) (tag : String) (passingOnly : Bool)
  deriving DecidableEq, Repr

/-- A scripted backend whose world state is the list of calls received so far: each call is
appended to that list and answered from the given reply functions. -/
def recorder (registerReply : AgentServiceRegistration → Option GoError)
    (healthReply : String → String → Bool → List (Option ServiceEntry) × Option GoError) :
    ConsulClient (List Call) :=
  { ServiceRegister := fun reg log => (registerReply reg, log ++ [Call.ServiceRegister reg])
    HealthService := fun service tag passingOnly log =>
      (healthReply service tag passingOnly,
        log ++ [Call.HealthService service tag passingOnly]) }

/-- The error of line 68 of `Lookup`: the backend answered with no instance. -/
def ServiceNotFoundError (service : String) : GoError :=
  GoError.fundamental ("service ( " ++ service ++ " ) was not found")

/-- The error of line 76 of `Lookup`: no instance carried a usable address and port. -/
def ServiceUnresolvableError (service : String) : GoError :=
  GoError.fundamental ("Could not look up service " ++ service ++ " host:port")

/-- The error of line 65 of `Lookup`: the backend call failed with `e`. -/
def BackendQueryError (e : GoError) : GoError :=
  GoError.withMessage e "error getting service from consul"

/-- The condition tested on line 72 of `Lookup`, on the service record it reads. -/
def usable (svc : AgentService) : Prop :=
  svc.Address ≠ "" ∧ svc.Port > 0

instance (svc : AgentService) : Decidable (usable svc) := by
  unfold usable; exact inferInstance

/-! ## A backend that stores registrations -/

/-- Modelled from the spec: the registration store of the discovery backend, which is not
part of this package.  Entries are keyed by their `ID`. -/
abbrev Store := List AgentServiceRegistration

/-- Modelled from the spec: the backend's handling of a submitted registration, "replacing
any prior registration sharing that identifier (idempotent upsert semantics, NOT
additive)": every entry with the same `ID` is dropped and the new entry is stored. -/
def Store.upsert (reg : AgentServiceRegistration) (st : Store) : Store :=
  st.filter (fun r => decide (r.ID ≠ reg.ID)) ++ [reg]

/-- The entries of the store that carry the identifier `id`. -/
def Store.entries (id : String) (st : Store) : List AgentServiceRegistration :=
  st.filter (fun r => decide (r.ID = id))

/-- Modelled from the spec: a backend client over the registration store.  A registration
is always accepted and upserted; health queries are answered by `healthReply` and leave the
store as it is. -/
def storeBackend
    (healthReply :
      String → String → Bool → Store → List (Option ServiceEntry) × Option GoError) :
    ConsulClient Store :=
  { ServiceRegister := fun reg st => (none, Store.upsert reg st)
    HealthService := fun service tag passingOnly st =>
      (healthReply service tag passingOnly st, st) }

/-! ## Lemmas on the scan of `Lookup` -/

theorem scan_skips_unusable (service : String) (pre : List (Option ServiceEntry))
    (rest : List (Option ServiceEntry))
    (hpre : ∀ x ∈ pre, ∃ (e : ServiceEntry) (svc : AgentService),
      x = some e ∧ e.Service = some svc ∧ ¬ usable svc) :
    client.Lookup.scan service (pre ++ rest) = client.Lookup.scan service rest := by
  induction pre with
  | nil => rfl
  | cons x xs ih =>
    obtain ⟨e, svc, hx, hs, hu⟩ := hpre x (List.mem_cons_self x xs)
    have hu2 : ¬ (svc.Address ≠ "" ∧ svc.Port > 0) := hu
    have hxs : ∀ y ∈ xs, ∃ (e : ServiceEntry) (svc : AgentService),
        y = some e ∧ e.Service = some svc ∧ ¬ usable svc :=
      fun y hy => hpre y (List.mem_cons_of_mem x hy)
    subst hx
    simp only [List.cons_append, client.Lookup.scan, hs, if_neg hu2]
    exact ih hxs

theorem scan_hit (service : String) (e : ServiceEntry) (svc : AgentService)
    (post : List (Option ServiceEntry)) (hs : e.Service = some svc) (hu : usable svc) :
    client.Lookup.scan service (some e :: post)
      = .returned (JoinHostPort svc.Address (Itoa svc.Port), none) := by
  have hu2 : svc.Address ≠ "" ∧ svc.Port > 0 := hu
  simp only [client.Lookup.scan, hs, if_pos hu2]

theorem scan_all_unusable (service : String) (addrs : List (Option ServiceEntry))
    (hall : ∀ x ∈ addrs, ∃ (e : ServiceEntry) (svc : AgentService),
      x = some e ∧ e.Service = some svc ∧ ¬ usable svc) :
    client.Lookup.scan service addrs
      = .returned ("", some (ServiceUnresolvableError service)) := by
  have h := scan_skips_unusable service addrs [] hall
  rw [List.append_nil] at h
  rw [h]
  rfl

theorem Lookup_of_error {σ : Type} (c : client σ) (service tag : String) (w : σ)
    (e : GoError) (herr : (c.consul.HealthService service tag true w).1.2 = some e) :
    (client.Lookup c service tag w).1 = .returned ("", some (BackendQueryError e)) := by
  simp [client.Lookup, herr, errors.Wrap, BackendQueryError]

theorem Lookup_of_empty {σ : Type} (c : client σ) (service tag : String) (w : σ)
    (hrep : (c.consul.HealthService service tag true w).1 = ([], none)) :
    (client.Lookup c service tag w).1
      = .returned ("", some (ServiceNotFoundError service)) := by
  simp [client.Lookup, hrep, errors.Errorf, ServiceNotFoundError]

theorem Lookup_of_nonempty {σ : Type} (c : client σ) (service tag : String) (w : σ)
    (addrs : List (Option ServiceEntry)) (hne : addrs ≠ [])
    (hrep : (c.consul.HealthService service tag true w).1 = (addrs, none)) :
    (client.Lookup c service tag w).1 = client.Lookup.scan service addrs := by
  simp [client.Lookup, hrep, hne]

theorem Lookup_world {σ : Type} (c : client σ) (service tag : String) (w : σ) :
    (client.Lookup c service tag w).2 = (c.consul.HealthService service tag true w).2 := by
  unfold client.Lookup
  simp only
  split_ifs <;> rfl

theorem scan_error_cases (service : String) (addrs : List (Option ServiceEntry)) :
    client.Lookup.scan service addrs = .nilDereference ∨
    (∃ s : String, client.Lookup.scan service addrs = .returned (s, none)) ∨
    client.Lookup.scan service addrs
      = .returned ("", some (ServiceUnresolvableError service)) := by
  induction addrs with
  | nil => exact Or.inr (Or.inr rfl)
  | cons x xs ih =>
    cases x with
    | none => exact Or.inl rfl
    | some e =>
      cases hs : e.Service with
      | none =>
        left
        simp only [client.Lookup.scan, hs]
      | some svc =>
        by_cases hx : svc.Address ≠ "" ∧ svc.Port > 0
        · right
          left
          exact ⟨_, scan_hit service e svc xs hs hx⟩
        · simp only [client.Lookup.scan, hs, if_neg hx]
          exact ih

/-! ## Messages of the three lookup errors -/

theorem ServiceNotFoundError_message (service : String) :
    (ServiceNotFoundError service).Error = "service ( " ++ service ++ " ) was not found" := rfl

theorem ServiceUnresolvableError_message (service : String) :
    (ServiceUnresolvableError service).Error
      = "Could not look up service " ++ service ++ " host:port" := rfl

theorem BackendQueryError_message (e : GoError) :
    (BackendQueryError e).Error = "error getting service from consul: " ++ e.Error := by
  apply String.ext
  simp [BackendQueryError, GoError.Error, String.data_append]

theorem unresolvable_message_ne_notFound (s t : String) :
    (ServiceUnresolvableError s).Error ≠ (ServiceNotFoundError t).Error := by
  intro h
  have h2 := congrArg String.data h
  simp [ServiceUnresolvableError, ServiceNotFoundError, GoError.Error,
    String.data_append] at h2

theorem backendQuery_message_ne_notFound (e : GoError) (t : String) :
    (BackendQueryError e).Error ≠ (ServiceNotFoundError t).Error := by
  intro h
  have h2 := congrArg String.data h
  simp [BackendQueryError, ServiceNotFoundError, GoError.Error, String.data_append] at h2

theorem backendQuery_message_ne_unresolvable (e : GoError) (t : String) :
    (BackendQueryError e).Error ≠ (ServiceUnresolvableError t).Error := by
  intro h
  have h2 := congrArg String.data h
  simp [BackendQueryError, ServiceUnresolvableError, GoError.Error,
    String.data_append] at h2

/-! ## Decimal rendering -/

theorem digitChar_mem (d : Nat) (h : d < 10) :
    Nat.digitChar d ∈ ['0', '1', '2', '3', '4', '5', '6', '7', '8', '9'] := by
  interval_cases d <;> decide

theorem digitChar_inj (d e : Nat) (hd : d < 10) (he : e < 10)
    (h : Nat.digitChar d = Nat.digitChar e) : d = e := by
  interval_cases d <;> interval_cases e <;> first | rfl | (exfalso; revert h; decide)

theorem toDigitsCore_eq (fuel : Nat) : ∀ (n : Nat) (ds : List Char), n < fuel →
    Nat.toDigitsCore 10 fuel n ds
      = (if n = 0 then ['0'] else ((Nat.digits 10 n).map Nat.digitChar).reverse) ++ ds := by
  induction fuel with
  | zero => intro n ds h; exact absurd h (Nat.not_lt_zero n)
  | succ fuel ih =>
    intro n ds h
    unfold Nat.toDigitsCore
    simp only
    by_cases hq : n / 10 = 0
    · rw [if_pos hq]
      have hlt : n < 10 := by omega
      by_cases hn : n = 0
      · subst hn; simp; rfl
      · rw [if_neg hn, Nat.digits_of_lt 10 n hn hlt, Nat.mod_eq_of_lt hlt]
        simp
    · rw [if_neg hq]
      have hn : n ≠ 0 := by rintro rfl; simp at hq
      have hlt : n / 10 < fuel := by omega
      rw [ih (n / 10) _ hlt, if_neg hq, if_neg hn,
        Nat.digits_def' (by norm_num) (Nat.pos_of_ne_zero hn)]
      simp

theorem repr_data (n : Nat) :
    (Nat.repr n).data
      = if n = 0 then ['0'] else ((Nat.digits 10 n).map Nat.digitChar).reverse := by
  have h := toDigitsCore_eq (n + 1) n [] (Nat.lt_succ_self n)
  rw [List.append_nil] at h
  simp only [Nat.repr, Nat.toDigits, List.asString]
  exact h

theorem repr_chars (n : Nat) (c : Char) (hc : c ∈ (Nat.repr n).data) :
    c ∈ ['0', '1', '2', '3', '4', '5', '6', '7', '8', '9'] := by
  rw [repr_data] at hc
  by_cases hn : n = 0
  · rw [if_pos hn] at hc
    simp at hc
    subst hc
    decide
  · rw [if_neg hn, List.mem_reverse, List.mem_map] at hc
    obtain ⟨d, hd, rfl⟩ := hc
    exact digitChar_mem d (Nat.digits_lt_base (by norm_num) hd)

theorem map_digitChar_inj : ∀ (l m : List Nat), (∀ d ∈ l, d < 10) → (∀ d ∈ m, d < 10) →
    l.map Nat.digitChar = m.map Nat.digitChar → l = m
  | [], [], _, _, _ => rfl
  | [], _ :: _, _, _, h => by simp at h
  | _ :: _, [], _, _, h => by simp at h
  | a :: l, b :: m, hl, hm, h => by
    simp only [List.map_cons, List.cons.injEq] at h
    have hab := digitChar_inj a b (hl a (List.mem_cons_self a l)) (hm b (List.mem_cons_self b m)) h.1
    have hrest := map_digitChar_inj l m (fun d hd => hl d (List.mem_cons_of_mem a hd))
      (fun d hd => hm d (List.mem_cons_of_mem b hd)) h.2
    rw [hab, hrest]

theorem repr_inj (n m : Nat) (h : Nat.repr n = Nat.repr m) : n = m := by
  have hd := congrArg String.data h
  rw [repr_data, repr_data] at hd
  have key : ∀ k : Nat, k ≠ 0 →
      ((Nat.digits 10 k).map Nat.digitChar).reverse ≠ ['0'] := by
    intro k hk hrev
    have h1 : (Nat.digits 10 k).map Nat.digitChar = ['0'] := by
      have := congrArg List.reverse hrev
      simpa using this
    have h2 : Nat.digits 10 k = [0] :=
      map_digitChar_inj _ [0] (fun d hd => Nat.digits_lt_base (by norm_num) hd)
        (by simp) (by rw [h1]; rfl)
    have h3 := Nat.getLast_digit_ne_zero 10 hk
    simp [h2] at h3
  by_cases hn : n = 0
  · by_cases hm : m = 0
    · rw [hn, hm]
    · rw [if_pos hn, if_neg hm] at hd
      exact absurd hd.symm (key m hm)
  · by_cases hm : m = 0
    · rw [if_neg hn, if_pos hm] at hd
      exact absurd hd (key n hn)
    · rw [if_neg hn, if_neg hm] at hd
      have h1 := List.reverse_injective hd
      have h2 := map_digitChar_inj _ _ (fun d hd => Nat.digits_lt_base (by norm_num) hd)
        (fun d hd => Nat.digits_lt_base (by norm_num) hd) h1
      exact Nat.digits_inj_iff.mp h2

theorem Itoa_data (p : Int) :
    (∃ n : Nat, p = Int.ofNat n ∧ (Itoa p).data = (Nat.repr n).data) ∨
    (∃ n : Nat, p = Int.negSucc n ∧ (Itoa p).data = '-' :: (Nat.repr (n + 1)).data) := by
  cases p with
  | ofNat n => exact Or.inl ⟨n, rfl, rfl⟩
  | negSucc n =>
    refine Or.inr ⟨n, rfl, ?_⟩
    simp [Itoa, String.data_append]

theorem Itoa_no_colon (p : Int) : ':' ∉ (Itoa p).data := by
  intro h
  rcases Itoa_data p with ⟨n, _, hd⟩ | ⟨n, _, hd⟩
  · rw [hd] at h
    exact absurd (repr_chars n ':' h) (by decide)
  · rw [hd, List.mem_cons] at h
    rcases h with h | h
    · exact absurd h (by decide)
    · exact absurd (repr_chars (n + 1) ':' h) (by decide)

theorem Itoa_inj (p q : Int) (h : Itoa p = Itoa q) : p = q := by
  have hd := congrArg String.data h
  rcases Itoa_data p with ⟨n, hn, hpd⟩ | ⟨n, hn, hpd⟩ <;>
    rcases Itoa_data q with ⟨m, hm, hqd⟩ | ⟨m, hm, hqd⟩
  · rw [hpd, hqd] at hd
    rw [hn, hm, repr_inj n m (String.ext hd)]
  · exfalso
    rw [hpd, hqd] at hd
    have hmem : '-' ∈ (Nat.repr n).data := by rw [hd]; exact List.mem_cons_self _ _
    exact absurd (repr_chars n '-' hmem) (by decide)
  · exfalso
    rw [hpd, hqd] at hd
    have hmem : '-' ∈ (Nat.repr m).data := by rw [← hd]; exact List.mem_cons_self _ _
    exact absurd (repr_chars m '-' hmem) (by decide)
  · rw [hpd, hqd] at hd
    have h1 := repr_inj (n + 1) (m + 1) (String.ext (List.cons.inj hd).2)
    rw [hn, hm, Nat.succ.inj h1]

/-! ## Splitting a string at a separator -/

theorem split_at_first {α : Type} (c : α) : ∀ (l₁ l₂ r₁ r₂ : List α), c ∉ l₁ → c ∉ l₂ →
    l₁ ++ c :: r₁ = l₂ ++ c :: r₂ → l₁ = l₂ ∧ r₁ = r₂
  | [], [], _, _, _, _, h => ⟨rfl, (List.cons.inj h).2⟩
  | [], b :: l₂, _, _, _, h₂, h => by
    have hcb : c = b := (List.cons.inj h).1
    exact absurd (hcb ▸ List.mem_cons_self c l₂) h₂
  | a :: l₁, [], _, _, h₁, _, h => by
    have hac : a = c := (List.cons.inj h).1
    exact absurd (hac ▸ List.mem_cons_self a l₁) (hac ▸ h₁)
  | a :: l₁, b :: l₂, r₁, r₂, h₁, h₂, h => by
    have hab : a = b := (List.cons.inj h).1
    have hrest := split_at_first c l₁ l₂ r₁ r₂
      (fun hm => h₁ (List.mem_cons_of_mem a hm)) (fun hm => h₂ (List.mem_cons_of_mem b hm))
      (List.cons.inj h).2
    exact ⟨by rw [hab, hrest.1], hrest.2⟩

theorem split_at_last {α : Type} (c : α) (l₁ l₂ r₁ r₂ : List α) (h₁ : c ∉ r₁) (h₂ : c ∉ r₂)
    (h : l₁ ++ c :: r₁ = l₂ ++ c :: r₂) : l₁ = l₂ ∧ r₁ = r₂ := by
  have hrev := congrArg List.reverse h
  simp only [List.reverse_append, List.reverse_cons, List.append_assoc,
    List.singleton_append] at hrev
  have hs := split_at_first c r₁.reverse r₂.reverse l₁.reverse l₂.reverse
    (by simpa using h₁) (by simpa using h₂) hrev
  exact ⟨List.reverse_injective hs.2, List.reverse_injective hs.1⟩

/-! ## Identifiers -/

theorem registration_ID_data (service address : String) (port : Int)
    (healthCheck : Option AgentServiceCheck) :
    (client.registration service address port healthCheck).ID.data
      = service.data ++ '-' :: (address.data ++ ':' :: (Itoa port).data) := by
  simp [client.registration, String.data_append]

theorem CheckID_data (service address : String) (port : Int) :
    (NewgRPCHealthCheck service address port).CheckID.data
      = "healthcheck-".data
          ++ (service.data ++ '-' :: (address.data ++ ':' :: (Itoa port).data)) := by
  simp [NewgRPCHealthCheck, String.data_append]

theorem identifier_body_split (s₁ a₁ s₂ a₂ : String) (p₁ p₂ : Int)
    (h : s₁.data ++ '-' :: (a₁.data ++ ':' :: (Itoa p₁).data)
      = s₂.data ++ '-' :: (a₂.data ++ ':' :: (Itoa p₂).data)) :
    p₁ = p₂ ∧ s₁.data ++ '-' :: a₁.data = s₂.data ++ '-' :: a₂.data := by
  have h2 : (s₁.data ++ '-' :: a₁.data) ++ ':' :: (Itoa p₁).data
      = (s₂.data ++ '-' :: a₂.data) ++ ':' :: (Itoa p₂).data := by
    simpa using h
  have hs := split_at_last ':' _ _ _ _ (Itoa_no_colon p₁) (Itoa_no_colon p₂) h2
  exact ⟨Itoa_inj p₁ p₂ (String.ext hs.2), hs.1⟩

theorem service_address_overlap (s₁ a₁ s₂ a₂ : String)
    (h : s₁.data ++ '-' :: a₁.data = s₂.data ++ '-' :: a₂.data) :
    (s₁ = s₂ ∧ a₁ = a₂) ∨
    ∃ m : String, (s₂ = s₁ ++ "-" ++ m ∧ a₁ = m ++ "-" ++ a₂) ∨
      (s₁ = s₂ ++ "-" ++ m ∧ a₂ = m ++ "-" ++ a₁) := by
  rcases List.append_eq_append_iff.mp h with ⟨t, hs, ha⟩ | ⟨t, hs, ha⟩
  · cases t with
    | nil =>
      left
      rw [List.append_nil] at hs
      rw [List.nil_append] at ha
      exact ⟨String.ext hs.symm, String.ext (List.cons.inj ha).2⟩
    | cons x m =>
      right
      rw [List.cons_append] at ha
      have hx : x = '-' := (List.cons.inj ha).1.symm
      subst hx
      refine ⟨String.mk m, Or.inl ⟨String.ext ?_, String.ext ?_⟩⟩
      · simp [String.data_append, hs]
      · simp [String.data_append, (List.cons.inj ha).2]
  · cases t with
    | nil =>
      left
      rw [List.append_nil] at hs
      rw [List.nil_append] at ha
      exact ⟨String.ext hs, String.ext (List.cons.inj ha).2.symm⟩
    | cons x m =>
      right
      rw [List.cons_append] at ha
      have hx : x = '-' := (List.cons.inj ha).1.symm
      subst hx
      refine ⟨String.mk m, Or.inr ⟨String.ext ?_, String.ext ?_⟩⟩
      · simp [String.data_append, hs]
      · simp [String.data_append, (List.cons.inj ha).2]

theorem no_overlap_of_plain (s₁ a₁ s₂ a₂ : String)
    (hsep : s₁ = s₂ ∨ a₁ = a₂ ∨ ('-' ∉ s₁.data ∧ '-' ∉ s₂.data) ∨
      ('-' ∉ a₁.data ∧ '-' ∉ a₂.data)) :
    ¬ ∃ m : String, (s₂ = s₁ ++ "-" ++ m ∧ a₁ = m ++ "-" ++ a₂) ∨
      (s₁ = s₂ ++ "-" ++ m ∧ a₂ = m ++ "-" ++ a₁) := by
  rintro ⟨m, ⟨hs, ha⟩ | ⟨hs, ha⟩⟩
  · have hsd := congrArg String.data hs
    have had := congrArg String.data ha
    simp only [String.data_append] at hsd had
    rcases hsep with h | h | h | h
    · rw [h] at hsd
      have hl := congrArg List.length hsd
      simp at hl
    · rw [h] at had
      have hl := congrArg List.length had
      simp at hl
      omega
    · apply h.2
      rw [hsd]
      simp
    · apply h.1
      rw [had]
      simp
  · have hsd := congrArg String.data hs
    have had := congrArg String.data ha
    simp only [String.data_append] at hsd had
    rcases hsep with h | h | h | h
    · rw [← h] at hsd
      have hl := congrArg List.length hsd
      simp at hl
    · rw [← h] at had
      have hl := congrArg List.length had
      simp at hl
      omega
    · apply h.1
      rw [hsd]
      simp
    · apply h.2
      rw [had]
      simp

theorem identifier_body_inj (s₁ a₁ s₂ a₂ : String) (p₁ p₂ : Int)
    (hsep : s₁ = s₂ ∨ a₁ = a₂ ∨ ('-' ∉ s₁.data ∧ '-' ∉ s₂.data) ∨
      ('-' ∉ a₁.data ∧ '-' ∉ a₂.data) ∨
      ¬ (p₁ = p₂ ∧ ∃ m : String, (s₂ = s₁ ++ "-" ++ m ∧ a₁ = m ++ "-" ++ a₂) ∨
        (s₁ = s₂ ++ "-" ++ m ∧ a₂ = m ++ "-" ++ a₁)))
    (h : s₁.data ++ '-' :: (a₁.data ++ ':' :: (Itoa p₁).data)
      = s₂.data ++ '-' :: (a₂.data ++ ':' :: (Itoa p₂).data)) :
    (s₁, a₁, p₁) = (s₂, a₂, p₂) := by
  obtain ⟨hp, hbody⟩ := identifier_body_split s₁ a₁ s₂ a₂ p₁ p₂ h
  rcases service_address_overlap s₁ a₁ s₂ a₂ hbody with ⟨hs, ha⟩ | hov
  · rw [hs, ha, hp]
  · exfalso
    rcases hsep with h1 | h1 | h1 | h1 | h1
    · exact no_overlap_of_plain s₁ a₁ s₂ a₂ (Or.inl h1) hov
    · exact no_overlap_of_plain s₁ a₁ s₂ a₂ (Or.inr (Or.inl h1)) hov
    · exact no_overlap_of_plain s₁ a₁ s₂ a₂ (Or.inr (Or.inr (Or.inl h1))) hov
    · exact no_overlap_of_plain s₁ a₁ s₂ a₂ (Or.inr (Or.inr (Or.inr h1))) hov
    · exact h1 ⟨hp, hov⟩

theorem overlapping_identifiers_coincide (s m a : String) (p : Int)
    (hc₁ hc₂ : Option AgentServiceCheck) :
    (client.registration s (m ++ "-" ++ a) p hc₁).ID
      = (client.registration (s ++ "-" ++ m) a p hc₂).ID ∧
    (NewgRPCHealthCheck s (m ++ "-" ++ a) p).CheckID
      = (NewgRPCHealthCheck (s ++ "-" ++ m) a p).CheckID := by
  constructor <;> apply String.ext <;>
    simp [client.registration, NewgRPCHealthCheck, String.data_append]

/-! ## The registration store -/

theorem entries_upsert (id : String) (reg : AgentServiceRegistration) (st : Store) :
    Store.entries id (Store.upsert reg st)
      = if reg.ID = id then [reg] else Store.entries id st := by
  unfold Store.entries Store.upsert
  rw [List.filter_append, List.filter_filter]
  by_cases h : reg.ID = id
  · subst h
    simp
  · simp only [if_neg h, List.filter_cons, List.filter_nil, decide_eq_true_eq,
      List.append_nil]
    apply List.filter_congr
    intro r _
    by_cases hr : r.ID = id
    · have hne : ¬ id = reg.ID := fun h2 => h h2.symm
      simp [hr, hne]
    · simp [hr]

theorem upsert_upsert (reg : AgentServiceRegistration) (st : Store) :
    Store.upsert reg (Store.upsert reg st) = Store.upsert reg st := by
  unfold Store.upsert
  rw [List.filter_append, List.filter_filter]
  simp

/-! ## `Lookup` -/

/-- C1 as stated fails: on an answer whose first entry carries no Service record and whose
second entry has a non-empty address and a positive port, `Lookup` does not return the
second entry's host:port; the call stops at the first entry with a nil dereference. -/
theorem Lookup_stops_at_entry_without_service :
    (client.Lookup
        ⟨recorder (fun _ => none) (fun _ _ _ =>
          ([some ⟨none⟩, some ⟨some ⟨"10.0.0.7", 8081⟩⟩], none))⟩
        "orders" "v1" []).1 = Outcome.nilDereference ∧
    (client.Lookup
        ⟨recorder (fun _ => none) (fun _ _ _ =>
          ([some ⟨none⟩, some ⟨some ⟨"10.0.0.7", 8081⟩⟩], none))⟩
        "orders" "v1" []).1
      ≠ Outcome.returned (JoinHostPort "10.0.0.7" (Itoa 8081), none) := by
  decide

/-- C1, amended: `Lookup` makes exactly one backend call, the health query with
`(service, tag, passingOnly = true)`; and when that query succeeds with a list in which `e`
is the first entry whose address is non-empty and whose port is positive, and every entry
before `e` is a non-nil entry carrying a Service record, `Lookup` returns no error and the
host:port join of `e`'s address and decimal port. -/
theorem Lookup_returns_first_usable (service tag : String) :
    (∀ (registerReply : AgentServiceRegistration → Option GoError)
        (healthReply : String → String → Bool → List (Option ServiceEntry) × Option GoError)
        (log : List Call),
        (client.Lookup ⟨recorder registerReply healthReply⟩ service tag log).2
          = log ++ [Call.HealthService service tag true]) ∧
    (∀ (σ : Type) (c : client σ) (w : σ) (pre : List (Option ServiceEntry))
        (e : ServiceEntry) (svc : AgentService) (post : List (Option ServiceEntry)),
        (c.consul.HealthService service tag true w).1 = (pre ++ some e :: post, none) →
        (∀ x ∈ pre, ∃ (e₀ : ServiceEntry) (svc₀ : AgentService),
          x = some e₀ ∧ e₀.Service = some svc₀ ∧ ¬ (svc₀.Address ≠ "" ∧ svc₀.Port > 0)) →
        e.Service = some svc →
        (svc.Address ≠ "" ∧ svc.Port > 0) →
        (client.Lookup c service tag w).1
          = .returned (JoinHostPort svc.Address (Itoa svc.Port), none)) := by
  refine ⟨?_, ?_⟩
  · intro registerReply healthReply log
    rw [Lookup_world]
    rfl
  · intro σ c w pre e svc post hrep hpre hs he
    have hne : pre ++ some e :: post ≠ [] := by simp
    rw [Lookup_of_nonempty c service tag w (pre ++ some e :: post) hne hrep,
      scan_skips_unusable service pre (some e :: post) hpre, scan_hit service e svc post hs he]

/-- C1, amended, on a three-element answer in which only the second entry qualifies: the
second entry's address and port are returned. -/
theorem Lookup_returns_first_usable_witness :
    (client.Lookup
        ⟨recorder (fun _ => none) (fun _ _ _ =>
          ([some ⟨some ⟨"", 8080⟩⟩, some ⟨some ⟨"10.0.0.7", 8081⟩⟩,
            some ⟨some ⟨"10.0.0.8", 0⟩⟩], none))⟩
        "orders" "v1" []).1 = .returned (JoinHostPort "10.0.0.7" (Itoa 8081), none) ∧
    JoinHostPort "10.0.0.7" (Itoa 8081) = "10.0.0.7:8081" :=
  ⟨(Lookup_returns_first_usable "orders" "v1").2 (List Call)
      ⟨recorder (fun _ => none) (fun _ _ _ =>
        ([some ⟨some ⟨"", 8080⟩⟩, some ⟨some ⟨"10.0.0.7", 8081⟩⟩,
          some ⟨some ⟨"10.0.0.8", 0⟩⟩], none))⟩
      [] [some ⟨some ⟨"", 8080⟩⟩] ⟨some ⟨"10.0.0.7", 8081⟩⟩ ⟨"10.0.0.7", 8081⟩
      [some ⟨some ⟨"10.0.0.8", 0⟩⟩] rfl
      (fun _ hx => ⟨⟨some ⟨"", 8080⟩⟩, ⟨"", 8080⟩, List.mem_singleton.mp hx, rfl, by decide⟩)
      rfl (by decide),
    by decide⟩

/-- C4: when the health query succeeds with an empty list, `Lookup` returns the empty
string and the error with message `service ( {service} ) was not found`; and whenever
`Lookup` returns an error with that message, the query had succeeded with an empty list. -/
theorem Lookup_not_found {σ : Type} (c : client σ) (service tag : String) (w : σ) :
    ((c.consul.HealthService service tag true w).1 = ([], none) →
      (client.Lookup c service tag w).1
        = .returned ("", some (ServiceNotFoundError service)) ∧
      (ServiceNotFoundError service).Error = "service ( " ++ service ++ " ) was not found") ∧
    (∀ (ipPort : String) (err : GoError),
      (client.Lookup c service tag w).1 = .returned (ipPort, some err) →
      err.Error = "service ( " ++ service ++ " ) was not found" →
      (c.consul.HealthService service tag true w).1 = ([], none)) := by
  refine ⟨fun hrep => ⟨Lookup_of_empty c service tag w hrep, rfl⟩, ?_⟩
  intro ipPort err hret hmsg
  rcases hq : (c.consul.HealthService service tag true w).1 with ⟨addrs, berr⟩
  cases berr with
  | some e =>
    exfalso
    have h1 := Lookup_of_error c service tag w e (by rw [hq])
    rw [h1] at hret
    have h2 : err = BackendQueryError e :=
      (Option.some.inj (congrArg Prod.snd (Outcome.returned.inj hret))).symm
    rw [h2] at hmsg
    exact backendQuery_message_ne_notFound e service hmsg
  | none =>
    cases addrs with
    | nil => rfl
    | cons x xs =>
      exfalso
      have h1 := Lookup_of_nonempty c service tag w (x :: xs) (by simp) hq
      rw [h1] at hret
      rcases scan_error_cases service (x :: xs) with h3 | ⟨s, h3⟩ | h3
      · rw [h3] at hret
        exact Outcome.noConfusion hret
      · rw [h3] at hret
        exact Option.noConfusion (congrArg Prod.snd (Outcome.returned.inj hret))
      · rw [h3] at hret
        have h2 : err = ServiceUnresolvableError service :=
          (Option.some.inj (congrArg Prod.snd (Outcome.returned.inj hret))).symm
        rw [h2] at hmsg
        exact unresolvable_message_ne_notFound service service hmsg

/-- C4, on a backend that answers every query with an empty list and no error. -/
theorem Lookup_not_found_witness :
    (client.Lookup ⟨recorder (fun _ => none) (fun _ _ _ => ([], none))⟩ "orders" "" []).1
      = .returned ("", some (GoError.fundamental "service ( orders ) was not found")) ∧
    ((recorder (fun _ => none) (fun _ _ _ => ([], none))).HealthService "orders" "" true []).1
      = ([], none) :=
  ⟨((Lookup_not_found ⟨recorder (fun _ => none) (fun _ _ _ => ([], none))⟩
      "orders" "" []).1 rfl).1,
    (Lookup_not_found ⟨recorder (fun _ => none) (fun _ _ _ => ([], none))⟩ "orders" "" []).2
      "" (GoError.fundamental "service ( orders ) was not found") (by decide) (by decide)⟩

/-- C5 as stated fails: on a non-empty answer without error whose only entry carries no
Service record, so that no entry has a non-empty address and a positive port, `Lookup` does
not return the unresolvable error; the call stops with a nil dereference. -/
theorem entry_without_service_not_unresolvable :
    ([some ⟨none⟩] : List (Option ServiceEntry)) ≠ [] ∧
    (∀ x ∈ ([some ⟨none⟩] : List (Option ServiceEntry)),
      ¬ ∃ (e : ServiceEntry) (svc : AgentService),
        x = some e ∧ e.Service = some svc ∧ svc.Address ≠ "" ∧ svc.Port > 0) ∧
    (client.Lookup ⟨recorder (fun _ => none) (fun _ _ _ => ([some ⟨none⟩], none))⟩
      "orders" "" []).1 = Outcome.nilDereference ∧
    (client.Lookup ⟨recorder (fun _ => none) (fun _ _ _ => ([some ⟨none⟩], none))⟩
      "orders" "" []).1 ≠ Outcome.returned ("", some (ServiceUnresolvableError "orders")) := by
  refine ⟨by decide, ?_, by decide, by decide⟩
  intro x hx hex
  obtain ⟨e, svc, hxe, hs, _⟩ := hex
  rw [List.mem_singleton.mp hx] at hxe
  rw [← Option.some.inj hxe] at hs
  exact Option.noConfusion hs

/-- C5, amended: when the health query succeeds with a non-empty list in which every entry
is a non-nil entry carrying a Service record whose address is empty or whose port is not
positive, `Lookup` returns the empty string and the error with message
`Could not look up service {service} host:port`, which differs, as a value and by its
message, from the not-found error. -/
theorem Lookup_unresolvable {σ : Type} (c : client σ) (service tag : String) (w : σ)
    (addrs : List (Option ServiceEntry)) (hne : addrs ≠ [])
    (hrep : (c.consul.HealthService service tag true w).1 = (addrs, none))
    (hall : ∀ x ∈ addrs, ∃ (e : ServiceEntry) (svc : AgentService),
      x = some e ∧ e.Service = some svc ∧ (svc.Address = "" ∨ svc.Port ≤ 0)) :
    (client.Lookup c service tag w).1
      = .returned ("", some (ServiceUnresolvableError service)) ∧
    (ServiceUnresolvableError service).Error
      = "Could not look up service " ++ service ++ " host:port" ∧
    ServiceUnresolvableError service ≠ ServiceNotFoundError service ∧
    (ServiceUnresolvableError service).Error ≠ (ServiceNotFoundError service).Error := by
  have hun : ∀ x ∈ addrs, ∃ (e : ServiceEntry) (svc : AgentService),
      x = some e ∧ e.Service = some svc ∧ ¬ usable svc := by
    intro x hx
    obtain ⟨e, svc, hxe, hs, h⟩ := hall x hx
    refine ⟨e, svc, hxe, hs, ?_⟩
    intro hu
    rcases h with h | h
    · exact hu.1 h
    · exact absurd hu.2 (not_lt.mpr h)
  refine ⟨?_, rfl, ?_, unresolvable_message_ne_notFound service service⟩
  · rw [Lookup_of_nonempty c service tag w addrs hne hrep]
    exact scan_all_unusable service addrs hun
  · intro h
    exact unresolvable_message_ne_notFound service service (congrArg GoError.Error h)

/-- C5, amended, on a backend whose only instance has an empty address. -/
theorem Lookup_unresolvable_witness :
    (client.Lookup
      ⟨recorder (fun _ => none) (fun _ _ _ => ([some ⟨some ⟨"", 8080⟩⟩], none))⟩
      "orders" "" []).1 = .returned ("", some (ServiceUnresolvableError "orders")) ∧
    (ServiceUnresolvableError "orders").Error
      = "Could not look up service " ++ "orders" ++ " host:port" ∧
    ServiceUnresolvableError "orders" ≠ ServiceNotFoundError "orders" ∧
    (ServiceUnresolvableError "orders").Error ≠ (ServiceNotFoundError "orders").Error :=
  Lookup_unresolvable
    ⟨recorder (fun _ => none) (fun _ _ _ => ([some ⟨some ⟨"", 8080⟩⟩], none))⟩
    "orders" "" [] [some ⟨some ⟨"", 8080⟩⟩] (by decide) rfl
    (fun _ hx => ⟨⟨some ⟨"", 8080⟩⟩, ⟨"", 8080⟩, List.mem_singleton.mp hx, rfl,
      Or.inl rfl⟩)

/-- C6: when the health query returns an error `e`, whatever list comes with it, `Lookup`
returns the empty string and `e` wrapped with the message
`error getting service from consul`, so that the returned error prints as that message,
`": "` and `e`'s message and has the cause of `e`; it is neither the not-found error nor
the unresolvable error, as a value or by its message. -/
theorem Lookup_backend_error {σ : Type} (c : client σ) (service tag : String) (w : σ)
    (addrs : List (Option ServiceEntry)) (e : GoError)
    (hrep : (c.consul.HealthService service tag true w).1 = (addrs, some e)) :
    (client.Lookup c service tag w).1
      = .returned ("", some (GoError.withMessage e "error getting service from consul")) ∧
    (GoError.withMessage e "error getting service from consul").Error
      = "error getting service from consul: " ++ e.Error ∧
    (GoError.withMessage e "error getting service from consul").Cause = e.Cause ∧
    (∀ (ipPort : String) (err : GoError),
      (client.Lookup c service tag w).1 = .returned (ipPort, some err) →
      (∀ s : String, err ≠ ServiceNotFoundError s ∧ err ≠ ServiceUnresolvableError s ∧
        err.Error ≠ (ServiceNotFoundError s).Error ∧
        err.Error ≠ (ServiceUnresolvableError s).Error)) := by
  have h1 := Lookup_of_error c service tag w e (by rw [hrep])
  refine ⟨h1, BackendQueryError_message e, rfl, ?_⟩
  intro ipPort err hret s
  rw [h1] at hret
  have h2 : err = BackendQueryError e :=
    (Option.some.inj (congrArg Prod.snd (Outcome.returned.inj hret))).symm
  subst h2
  refine ⟨?_, ?_, backendQuery_message_ne_notFound e s,
    backendQuery_message_ne_unresolvable e s⟩
  · intro h
    exact backendQuery_message_ne_notFound e s (congrArg GoError.Error h)
  · intro h
    exact backendQuery_message_ne_unresolvable e s (congrArg GoError.Error h)

/-- C6, on a backend whose query fails with `connection refused` and an empty list. -/
theorem Lookup_backend_error_witness :
    (client.Lookup
      ⟨recorder (fun _ => none) (fun _ _ _ => ([], some (GoError.external "connection refused")))⟩
      "orders" "" []).1
      = .returned ("", some (GoError.withMessage (GoError.external "connection refused")
          "error getting service from consul")) ∧
    (GoError.withMessage (GoError.external "connection refused")
        "error getting service from consul").Error
      = "error getting service from consul: connection refused" :=
  ⟨(Lookup_backend_error
      ⟨recorder (fun _ => none) (fun _ _ _ => ([], some (GoError.external "connection refused")))⟩
      "orders" "" [] [] (GoError.external "connection refused") rfl).1,
    by decide⟩

/-! ## `Register` -/

/-- C2: `Register` makes exactly one backend call, a service registration whose ID is
`{service}-{address}:{port}` with the port in decimal, whose Name, Address and Port are the
arguments, and whose Check is the supplied descriptor; it returns the backend's answer. -/
theorem Register_submits_registration (service address : String) (port : Int)
    (healthCheck : Option AgentServiceCheck) :
    (∀ (registerReply : AgentServiceRegistration → Option GoError)
        (healthReply : String → String → Bool → List (Option ServiceEntry) × Option GoError)
        (log : List Call),
        client.Register ⟨recorder registerReply healthReply⟩ service address port healthCheck log
          = (registerReply
              { ID := service ++ "-" ++ address ++ ":" ++ Itoa port, Name := service,
                Address := address, Port := port, Check := healthCheck },
             log ++ [Call.ServiceRegister
              { ID := service ++ "-" ++ address ++ ":" ++ Itoa port, Name := service,
                Address := address, Port := port, Check := healthCheck }])) ∧
    (∀ (σ : Type) (c : client σ) (w : σ),
        client.Register c service address port healthCheck w
          = c.consul.ServiceRegister
              { ID := service ++ "-" ++ address ++ ":" ++ Itoa port, Name := service,
                Address := address, Port := port, Check := healthCheck } w) ∧
    (client.registration "orders" "10.0.0.5" 9090 none).ID = "orders-10.0.0.5:9090" :=
  ⟨fun _ _ _ => rfl, fun _ _ _ => rfl, by decide⟩

/-! ## `NewgRPCHealthCheck` -/

/-- C7 as stated fails: an address with a percent sign and no colon is not bracketed. -/
theorem NewgRPCHealthCheck_percent_not_bracketed :
    ¬ ((NewgRPCHealthCheck "orders" "fe80%eth0" 9090).GRPC
        = if ':' ∈ "fe80%eth0".data ∨ '%' ∈ "fe80%eth0".data
          then "[" ++ "fe80%eth0" ++ "]:" ++ Itoa 9090
          else "fe80%eth0" ++ ":" ++ Itoa 9090) := by
  decide

/-- C7, amended: the descriptor has CheckID `healthcheck-{service}-{address}:{port}` with
the port in decimal, Interval `5s`, Timeout `1s`, TLSSkipVerify true, GRPCUseTLS false, and
its probe target is `{address}:{port}` when the address contains no colon and
`[{address}]:{port}` when it contains one; for `("orders", "10.0.0.5", 9090)` the CheckID
is `healthcheck-orders-10.0.0.5:9090` and the target is `10.0.0.5:9090`. -/
theorem NewgRPCHealthCheck_fields (service address : String) (port : Int) :
    (NewgRPCHealthCheck service address port).CheckID
      = "healthcheck-" ++ service ++ "-" ++ address ++ ":" ++ Itoa port ∧
    (NewgRPCHealthCheck service address port).Interval = "5s" ∧
    (NewgRPCHealthCheck service address port).Timeout = "1s" ∧
    (NewgRPCHealthCheck service address port).TLSSkipVerify = true ∧
    (NewgRPCHealthCheck service address port).GRPCUseTLS = false ∧
    (NewgRPCHealthCheck service address port).GRPC
      = (if ':' ∈ address.data then "[" ++ address ++ "]:" ++ Itoa port
         else address ++ ":" ++ Itoa port) ∧
    (NewgRPCHealthCheck "orders" "10.0.0.5" 9090).CheckID
      = "healthcheck-orders-10.0.0.5:9090" ∧
    (NewgRPCHealthCheck "orders" "10.0.0.5" 9090).GRPC = "10.0.0.5:9090" ∧
    (NewgRPCHealthCheck "orders" "::1" 9090).GRPC = "[::1]:9090" :=
  ⟨rfl, rfl, rfl, rfl, rfl, rfl, by decide, by decide, by decide⟩

/-- C8 as stated fails: the display name for `("orders", "10.0.0.5", 9090)` is not
`probe-orders`. -/
theorem NewgRPCHealthCheck_name_not_probe :
    ¬ ((NewgRPCHealthCheck "orders" "10.0.0.5" 9090).Name = "probe-" ++ "orders") := by
  decide

/-- C8, amended: the display name of the descriptor is `grpc-` followed by the service
name; for `("orders", "10.0.0.5", 9090)` it is `grpc-orders`. -/
theorem NewgRPCHealthCheck_name (service address : String) (port : Int) :
    (NewgRPCHealthCheck service address port).Name = "grpc-" ++ service ∧
    (NewgRPCHealthCheck "orders" "10.0.0.5" 9090).Name = "grpc-orders" :=
  ⟨rfl, by decide⟩

/-! ## Uniqueness of identifiers -/

/-- C9 as stated fails: the triples `("web-db", "host", 80)` and `("web", "db-host", 80)`
differ, yet they get the same service identifier and the same check identifier. -/
theorem identifiers_collide :
    ¬ ((("web-db", "host", (80 : Int)) : String × String × Int) ≠ ("web", "db-host", 80) →
      (client.registration "web-db" "host" 80 none).ID
          ≠ (client.registration "web" "db-host" 80 none).ID ∧
        (NewgRPCHealthCheck "web-db" "host" 80).CheckID
          ≠ (NewgRPCHealthCheck "web" "db-host" 80).CheckID) := by
  decide

/-- C9, amended: two triples that differ get different service identifiers and different
check identifiers, and in the registration store the entry registered for the first triple
is still the only one under its identifier after the second triple has been registered,
except when the ports are equal and, for some string `m`, one service name is the other
followed by `-m` while the other triple's address is `m-` followed by the first triple's
address.  In particular this holds when the service names are equal, when the addresses
are equal, when neither service name contains `-`, and when neither address contains `-`. -/
theorem identifiers_unique (s₁ a₁ s₂ a₂ : String) (p₁ p₂ : Int)
    (hsep : s₁ = s₂ ∨ a₁ = a₂ ∨ ('-' ∉ s₁.data ∧ '-' ∉ s₂.data) ∨
      ('-' ∉ a₁.data ∧ '-' ∉ a₂.data) ∨
      ¬ (p₁ = p₂ ∧ ∃ m : String, (s₂ = s₁ ++ "-" ++ m ∧ a₁ = m ++ "-" ++ a₂) ∨
        (s₁ = s₂ ++ "-" ++ m ∧ a₂ = m ++ "-" ++ a₁)))
    (hne : (s₁, a₁, p₁) ≠ (s₂, a₂, p₂)) :
    (∀ hc₁ hc₂ : Option AgentServiceCheck,
      (client.registration s₁ a₁ p₁ hc₁).ID ≠ (client.registration s₂ a₂ p₂ hc₂).ID) ∧
    (NewgRPCHealthCheck s₁ a₁ p₁).CheckID ≠ (NewgRPCHealthCheck s₂ a₂ p₂).CheckID ∧
    (∀ (healthReply :
          String → String → Bool → Store → List (Option ServiceEntry) × Option GoError)
        (hc₁ hc₂ : Option AgentServiceCheck) (st : Store),
      Store.entries (s₁ ++ "-" ++ a₁ ++ ":" ++ Itoa p₁)
          (client.Register ⟨storeBackend healthReply⟩ s₂ a₂ p₂ hc₂
            (client.Register ⟨storeBackend healthReply⟩ s₁ a₁ p₁ hc₁ st).2).2
        = [{ ID := s₁ ++ "-" ++ a₁ ++ ":" ++ Itoa p₁, Name := s₁, Address := a₁, Port := p₁,
             Check := hc₁ }]) := by
  have hid : ∀ hc₁ hc₂ : Option AgentServiceCheck,
      (client.registration s₁ a₁ p₁ hc₁).ID ≠ (client.registration s₂ a₂ p₂ hc₂).ID := by
    intro hc₁ hc₂ h
    have hd := congrArg String.data h
    rw [registration_ID_data, registration_ID_data] at hd
    exact hne (identifier_body_inj s₁ a₁ s₂ a₂ p₁ p₂ hsep hd)
  refine ⟨hid, ?_, ?_⟩
  · intro h
    have hd := congrArg String.data h
    rw [CheckID_data, CheckID_data] at hd
    exact hne (identifier_body_inj s₁ a₁ s₂ a₂ p₁ p₂ hsep (List.append_cancel_left hd))
  · intro healthReply hc₁ hc₂ st
    have h2 : (client.registration s₂ a₂ p₂ hc₂).ID ≠ s₁ ++ "-" ++ a₁ ++ ":" ++ Itoa p₁ :=
      fun h => hid hc₁ hc₂ h.symm
    show Store.entries (s₁ ++ "-" ++ a₁ ++ ":" ++ Itoa p₁)
        (Store.upsert (client.registration s₂ a₂ p₂ hc₂)
          (Store.upsert (client.registration s₁ a₁ p₁ hc₁) st))
      = [client.registration s₁ a₁ p₁ hc₁]
    rw [entries_upsert, if_neg h2, entries_upsert]
    exact if_pos rfl

/-- C9, amended, on two hyphenated services of one hyphenated host:
`("exception-service", "node-1", 80)` and `("order-service", "node-1", 80)` get different
identifiers. -/
theorem identifiers_unique_witness :
    (client.registration "exception-service" "node-1" 80 none).ID
      ≠ (client.registration "order-service" "node-1" 80 none).ID ∧
    (NewgRPCHealthCheck "exception-service" "node-1" 80).CheckID
      ≠ (NewgRPCHealthCheck "order-service" "node-1" 80).CheckID :=
  ⟨(identifiers_unique "exception-service" "node-1" "order-service" "node-1" 80 80
      (Or.inr (Or.inl rfl)) (by decide)).1 none none,
    (identifiers_unique "exception-service" "node-1" "order-service" "node-1" 80 80
      (Or.inr (Or.inl rfl)) (by decide)).2.1⟩

/-! ## Registering twice -/

/-- C3: over the registration store, in which a submitted registration replaces the entry
with the same ID, registering the same `(service, address, port, healthCheck)` twice leaves
the store in the same state as registering it once, and in that state exactly one entry,
the submitted registration, has the ID `{service}-{address}:{port}`. -/
theorem Register_idempotent
    (healthReply :
      String → String → Bool → Store → List (Option ServiceEntry) × Option GoError)
    (st : Store) (service address : String) (port : Int)
    (healthCheck : Option AgentServiceCheck) :
    (client.Register ⟨storeBackend healthReply⟩ service address port healthCheck
        (client.Register ⟨storeBackend healthReply⟩ service address port healthCheck st).2).2
      = (client.Register ⟨storeBackend healthReply⟩ service address port healthCheck st).2 ∧
    Store.entries (service ++ "-" ++ address ++ ":" ++ Itoa port)
        (client.Register ⟨storeBackend healthReply⟩ service address port healthCheck st).2
      = [{ ID := service ++ "-" ++ address ++ ":" ++ Itoa port, Name := service,
           Address := address, Port := port, Check := healthCheck }] ∧
    (Store.entries (service ++ "-" ++ address ++ ":" ++ Itoa port)
        (client.Register ⟨storeBackend healthReply⟩ service address port healthCheck
          (client.Register ⟨storeBackend healthReply⟩ service address port healthCheck
            st).2).2).length = 1 := by
  have h1 : (client.Register ⟨storeBackend healthReply⟩ service address port healthCheck
        (client.Register ⟨storeBackend healthReply⟩ service address port healthCheck st).2).2
      = (client.Register ⟨storeBackend healthReply⟩ service address port healthCheck st).2 :=
    upsert_upsert (client.registration service address port healthCheck) st
  have h2 : Store.entries (service ++ "-" ++ address ++ ":" ++ Itoa port)
        (client.Register ⟨storeBackend healthReply⟩ service address port healthCheck st).2
      = [client.registration service address port healthCheck] := by
    show Store.entries (service ++ "-" ++ address ++ ":" ++ Itoa port)
        (Store.upsert (client.registration service address port healthCheck) st) = _
    rw [entries_upsert]
    exact if_pos rfl
  refine ⟨h1, h2, ?_⟩
  rw [h1, h2]
  rfl

/-! ## `RegistergRPCService` -/

theorem RegistergRPCService_submits (env : Environment (List Call))
    (registerReply : AgentServiceRegistration → Option GoError)
    (healthReply : String → String → Bool → List (Option ServiceEntry) × Option GoError)
    (consulAddr myServiceID myServiceExternalAddr host : String) (port : Int)
    (log : List Call)
    (hsplit : env.SplitHostPort myServiceExternalAddr = ((host, port), none))
    (hclient : env.NewClient consulAddr = .ok (recorder registerReply healthReply)) :
    (RegistergRPCService env consulAddr myServiceID myServiceExternalAddr log).2
      = log ++ [Call.ServiceRegister
          { ID := "exception-service" ++ "-" ++ host ++ ":" ++ Itoa port,
            Name := "exception-service", Address := host, Port := port,
            Check := some (NewgRPCHealthCheck consulAddr host port) }] := by
  unfold RegistergRPCService NewConsulClient
  simp only [hsplit, hclient]
  split <;> rename_i heq <;>
    · have hw := (congrArg Prod.snd heq).symm
      simpa [client.Register, recorder, client.registration] using hw

theorem NewgRPCHealthCheck_service_inj (s₁ s₂ address : String) (port : Int)
    (h : NewgRPCHealthCheck s₁ address port = NewgRPCHealthCheck s₂ address port) :
    s₁ = s₂ := by
  have hname : "grpc-" ++ s₁ = "grpc-" ++ s₂ := congrArg AgentServiceCheck.Name h
  have hd := congrArg String.data hname
  rw [String.data_append, String.data_append] at hd
  exact String.ext (List.append_cancel_left hd)

/-- C10 fails on the code: with backend address `127.0.0.1:8500` and external address
`10.0.0.5:9090`, the one registration submitted is named `exception-service`, but the check
attached to it is derived from the backend address, not from the service name. -/
theorem RegistergRPCService_check_from_backend_address :
    RegistergRPCService
        { SplitHostPort := fun _ => (("10.0.0.5", 9090), none)
          NewClient := fun _ => .ok (recorder (fun _ => none) (fun _ _ _ => ([], none))) }
        "127.0.0.1:8500" "exception-1" "10.0.0.5:9090" []
      = (none, [Call.ServiceRegister
          { ID := "exception-service-10.0.0.5:9090", Name := "exception-service",
            Address := "10.0.0.5", Port := 9090,
            Check := some
              { CheckID := "healthcheck-127.0.0.1:8500-10.0.0.5:9090",
                Name := "grpc-127.0.0.1:8500", Interval := "5s", Timeout := "1s",
                TLSSkipVerify := true, GRPC := "10.0.0.5:9090", GRPCUseTLS := false } }]) ∧
    NewgRPCHealthCheck "127.0.0.1:8500" "10.0.0.5" 9090
      ≠ NewgRPCHealthCheck "exception-service" "10.0.0.5" 9090 ∧
    (NewgRPCHealthCheck "exception-service" "10.0.0.5" 9090).CheckID
      = "healthcheck-exception-service-10.0.0.5:9090" := by
  decide

end Consul
